import Mathlib

/-!
Shallow embedding of the basketball-simulation repository.

JavaScript numbers are modelled as rationals (all arithmetic the claims
touch is exact), JS `Math.round` as `jsRound` (round half toward +infinity),
and the React `useState` components as explicit state structures with a
step function over an event alphabet.  Source names are kept wherever
Lean allows.
-/

namespace Simulation

/-- JS `Math.round`: rounds half toward positive infinity. -/
def jsRound (q : ℚ) : Int := Int.floor (q + 1/2)

/-- `StatType` from `PlayerPanel.tsx`: the closed set of action tags.
    (The spec calls these scorePoint / assist / rebound / turnover /
    goodDecision / badDecision; the code uses the plural field names.) -/
inductive StatType
  | points
  | assists
  | rebounds
  | turnovers
  | goodDecisions
  | badDecisions
deriving DecidableEq, Repr

/-- The per-action weights of `calculatePerformanceScore`
    (`calculationUtils.ts`, lines 12-19). -/
def weights : StatType → Int
  | .points => 10
  | .assists => 8
  | .rebounds => 6
  | .turnovers => -5
  | .goodDecisions => 7
  | .badDecisions => -6

/-- `calculatePerformanceScore` from `calculationUtils.ts` (lines 10-27):
    weighted sum of the actions, offset by 50, clamped to [0, 100]. -/
def calculatePerformanceScore (actions : List StatType) : Int :=
  let rawScore := actions.foldl (fun total action => total + weights action) 0
  max 0 (min 100 (rawScore + 50))

/-- `SurveyResponses` from `SurveyModal.tsx`: three 1-9 ratings. -/
structure SurveyResponses where
  emotionalArousal : Int
  momentum : Int
  flow : Int
deriving DecidableEq, Repr

/-- `SAALevel` from `SAADisplay.tsx`. -/
inductive SAALevel
  | low
  | moderate
  | high
deriving DecidableEq, Repr

/-- The `<50 -> low / >80 -> high / else moderate` leveling used by
    `calculateSAAValue` and by `SAAInputModal.handleSubmit`. -/
def saaLevelOf (value : Int) : SAALevel :=
  if value < 50 then .low
  else if value > 80 then .high
  else .moderate

/-- `calculateSAAValue` from `calculationUtils.ts` (lines 39-86).
    `biologicalVariability` stands for the `Math.random() * 8 - 4` term
    (a value in [-4, 4)); everything else is translated literally. -/
def calculateSAAValue (responses : SurveyResponses) (biologicalVariability : ℚ) :
    Int × SAALevel :=
  let baseValue : ℚ := 35
  let arousalContribution : ℚ := (responses.emotionalArousal : ℚ) * 3
  let flowContribution : ℚ :=
    if responses.flow < 4 then ((4 - responses.flow : Int) : ℚ) * 3
    else if responses.flow > 7 then ((responses.flow - 7 : Int) : ℚ) * 2
    else -(((responses.flow - 4 : Int) : ℚ) * 2)
  let momentumFactor : ℚ := 3/2 - (responses.momentum : ℚ) * (1/10)
  let calculatedValue : ℚ :=
    baseValue + arousalContribution * momentumFactor + flowContribution +
      biologicalVariability
  let rounded : Int := jsRound (max 30 (min 160 calculatedValue))
  (rounded, saaLevelOf rounded)

/-- `normalizeValue` from `calculationUtils.ts` (lines 97-105):
    unclamped linear rescale. -/
def normalizeValue (value fromMin fromMax toMin toMax : ℚ) : ℚ :=
  ((value - fromMin) / (fromMax - fromMin)) * (toMax - toMin) + toMin

/-- `calculatePsychologicalState` from `calculationUtils.ts` (lines 112-135). -/
def calculatePsychologicalState (responses : SurveyResponses) : ℚ :=
  let izofScore : ℚ :=
    if 4 ≤ responses.emotionalArousal ∧ responses.emotionalArousal ≤ 7 then 100
    else 100 - |11/2 - (responses.emotionalArousal : ℚ)| * 15
  let momentumScore := normalizeValue (responses.momentum : ℚ) 1 9 30 100
  let flowScore := normalizeValue (responses.flow : ℚ) 1 9 30 100
  let compositeScore :=
    izofScore * (4/10) + momentumScore * (3/10) + flowScore * (3/10)
  max 0 (min 100 compositeScore)

/-! ## Performance table: Hollinger-style efficiency (`PerformanceTable.tsx`) -/

/-- `TimelineStats` from `PerformanceTable.tsx` (the `performance` field is
    not read by `calculateHollingerScore` and is omitted). -/
structure TimelineStats where
  timePoint : Nat
  quarter : Nat
  points : Nat
  assists : Nat
  rebounds : Nat
  turnovers : Nat
  goodDecisions : Nat
  badDecisions : Nat
deriving DecidableEq, Repr

/-- `totalActions` inside `calculateHollingerScore` (lines 34-40). -/
def totalActions (stats : TimelineStats) : Nat :=
  stats.points + stats.assists + stats.rebounds + stats.turnovers +
    stats.goodDecisions + stats.badDecisions

/-- `positiveScore` inside `calculateHollingerScore` (lines 53-57). -/
def positiveScore (stats : TimelineStats) : ℚ :=
  (stats.points : ℚ) + (7/10) * (stats.rebounds : ℚ) +
    (7/10) * (stats.assists : ℚ) + (3/10) * (stats.goodDecisions : ℚ)

/-- `negativeScore` inside `calculateHollingerScore` (lines 60-62). -/
def negativeScore (stats : TimelineStats) : ℚ :=
  1 * (stats.turnovers : ℚ) + (7/10) * (stats.badDecisions : ℚ)

/-- `gameScore = positiveScore - negativeScore` (line 65). -/
def gameScore (stats : TimelineStats) : ℚ :=
  positiveScore stats - negativeScore stats

/-- Result record of `calculateHollingerScore`. -/
structure HollingerResult where
  gameScore : ℚ
  maxPossibleScore : ℚ
  efficiencyPercentage : Option ℚ
  hasActions : Bool
deriving DecidableEq, Repr

/-- `scaleFactor = min(1, totalActions / 8)` (line 73). -/
def scaleFactor (stats : TimelineStats) : ℚ :=
  min 1 ((totalActions stats : ℚ) / 8)

/-- The piecewise efficiency percentage before rounding
    (`PerformanceTable.tsx` lines 76-94); the threshold
    `SIGNIFICANT_CONTRIBUTION_THRESHOLD` is 4. -/
def efficiencyBase (stats : TimelineStats) : ℚ :=
  if gameScore stats ≤ 0 then
    max 0 (40 + gameScore stats * 10)
  else if gameScore stats < 4 then
    let scaled := 40 + (gameScore stats / 4) * 40
    40 + (scaled - 40) * scaleFactor stats
  else
    min 100 (80 + (gameScore stats - 4) * 5)

/-- `Math.round` of the base percentage (line 97). -/
def efficiencyRounded (stats : TimelineStats) : ℚ :=
  (jsRound (efficiencyBase stats) : ℚ)

/-- Special case 1 (lines 100-102): a single positive action caps at 80. -/
def efficiencyCapped (stats : TimelineStats) : ℚ :=
  if totalActions stats = 1 ∧ gameScore stats > 0 then
    min (efficiencyRounded stats) 80
  else efficiencyRounded stats

/-- Special case 2 (lines 105-107): only negative actions. -/
def efficiencyFinal (stats : TimelineStats) : ℚ :=
  if positiveScore stats = 0 ∧ negativeScore stats > 0 then
    max 0 (min 30 (30 - negativeScore stats * 10))
  else efficiencyCapped stats

/-- `calculateHollingerScore` from `PerformanceTable.tsx` (lines 27-131):
    piecewise percentage from the game score with a `Math.round`, the
    one-positive-action cap at 80 and the all-negative cap at 30, written
    here with a named definition per stage of the source function. -/
def calculateHollingerScore (stats : TimelineStats) : HollingerResult :=
  if totalActions stats = 0 then
    { gameScore := 0, maxPossibleScore := 0, efficiencyPercentage := none,
      hasActions := false }
  else
    { gameScore := gameScore stats,
      maxPossibleScore := positiveScore stats + negativeScore stats,
      efficiencyPercentage := some (efficiencyFinal stats),
      hasActions := true }

/-! ## Game clock (`GameClock.tsx`) -/

/-- `PlaybackMode` from `GameClock.tsx`. -/
inductive PlaybackMode
  | live
  | fast
  | manual
deriving DecidableEq, Repr

/-- `GameClockState` from `GameClock.tsx`.  `timeRemaining` is kept as an
    integer so that "never negative" is a real statement. -/
structure GameClockState where
  currentQuarter : Int
  timeRemaining : Int
  clockRunning : Bool
  mode : PlaybackMode
deriving DecidableEq, Repr

/-- `QUARTER_TIME = 600` seconds. -/
def QUARTER_TIME : Int := 600

/-- The initial `useState` value of the clock. -/
def initClock : GameClockState :=
  { currentQuarter := 1, timeRemaining := QUARTER_TIME, clockRunning := false,
    mode := .live }

/-- One firing of the interval callback (`GameClock.tsx` lines 67-85).
    The interval only exists while the clock is running in a non-manual
    mode; a tick in any other state is a no-op. -/
def clockTick (s : GameClockState) : GameClockState :=
  if s.clockRunning ∧ s.mode ≠ .manual then
    if s.timeRemaining ≤ 0 then { s with clockRunning := false }
    else
      let decrement : Int := if s.mode = .live then 1 else 5
      { s with timeRemaining := max 0 (s.timeRemaining - decrement) }
  else s

/-- `startClock`, guarded by `canStart` (button disabled otherwise). -/
def startClock (s : GameClockState) : GameClockState :=
  if ¬s.clockRunning ∧ s.timeRemaining > 0 then { s with clockRunning := true }
  else s

/-- `pauseClock`, guarded by `canPause`. -/
def pauseClock (s : GameClockState) : GameClockState :=
  if s.clockRunning then { s with clockRunning := false } else s

/-- `nextQuarter`: reset to 600s, pause, bump the quarter with a ceiling of 4. -/
def nextQuarter (s : GameClockState) : GameClockState :=
  { s with
    currentQuarter := if s.currentQuarter ≥ 4 then 4 else s.currentQuarter + 1,
    timeRemaining := QUARTER_TIME,
    clockRunning := false }

/-- `changeMode`: switching modes always pauses. -/
def changeMode (s : GameClockState) (m : PlaybackMode) : GameClockState :=
  { s with mode := m, clockRunning := false }

/-- `advanceManualTime`, guarded by mode `manual` and `canAdvance`. -/
def advanceManualTime (s : GameClockState) : GameClockState :=
  if s.mode = .manual ∧ s.timeRemaining > 0 then
    { s with timeRemaining := max 0 (s.timeRemaining - 30) }
  else s

/-- The clock's event alphabet. -/
inductive ClockEv
  | tick
  | start
  | pause
  | quarterBump
  | setMode (m : PlaybackMode)
  | advanceManual
deriving DecidableEq, Repr

/-- Clock transition function. -/
def clockStep (s : GameClockState) : ClockEv → GameClockState
  | .tick => clockTick s
  | .start => startClock s
  | .pause => pauseClock s
  | .quarterBump => nextQuarter s
  | .setMode m => changeMode s m
  | .advanceManual => advanceManualTime s

/-- Clock states reachable from the initial state. -/
inductive ClockReachable : GameClockState → Prop
  | init : ClockReachable initClock
  | step {s : GameClockState} (e : ClockEv) :
      ClockReachable s → ClockReachable (clockStep s e)

/-! ## Biometric capture modal (`SAAInputModal.tsx`) -/

/-- Local state of `SAAInputModal`: the text field content and the
    inline-error flag. -/
structure SAAInputState where
  saaValue : List Char
  isInvalid : Bool
deriving DecidableEq, Repr

/-- Initial `useState` values of the modal. -/
def initSAAInput : SAAInputState := { saaValue := [], isInvalid := false }

/-- The regex `/^\d+$/`: a nonempty string of decimal digits. -/
def allDigits (s : List Char) : Bool := s ≠ [] && s.all Char.isDigit

/-- `handleChange` (`SAAInputModal.tsx` lines 16-23): only the empty string
    or an all-digit string may enter the field; anything else is ignored. -/
def handleChange (st : SAAInputState) (input : List Char) : SAAInputState :=
  if input = [] ∨ allDigits input then { saaValue := input, isInvalid := false }
  else st

/-- `parseInt(·, 10)` on a digit string. -/
def parseIntDigits (s : List Char) : Nat :=
  s.foldl (fun n c => 10 * n + (c.toNat - 48)) 0

/-- `generateRandomValue` (lines 25-30): `Math.floor(rand * 126) + 35`,
    with `rand` standing for `Math.random()`. -/
def generateRandomValue (rand : ℚ) : Int := Int.floor (rand * 126) + 35

/-- `handleSubmit` (lines 32-51): an empty field is rejected with the inline
    message (`isInvalid := true`) and nothing is submitted; otherwise the
    parsed integer together with its threshold level is submitted and the
    field resets. -/
def handleSubmit (st : SAAInputState) : Option (Nat × SAALevel) × SAAInputState :=
  if st.saaValue = [] then (none, { st with isInvalid := true })
  else
    let numericValue := parseIntDigits st.saaValue
    let level := saaLevelOf numericValue
    (some (numericValue, level), { st with saaValue := [] })

example : handleSubmit (handleChange initSAAInput "200".data) =
    (some (200, .high), { saaValue := [], isInvalid := false }) := by decide

/-! ## Timeline orchestrator (`App.tsx` + `PlayerPanel.tsx` +
`EventBlockGenerator.tsx`)

Handlers chained through `setTimeout` are modelled as single atomic steps
in program order (the app is single-threaded and the claims do not
exercise the pacing delays).  `Math.random()` draws are oracle
parameters on the events.  Timestamps are dropped. -/

/-- Per-timeline-point running action counters (`Record<StatType, number>`). -/
structure Counts where
  points : Nat
  assists : Nat
  rebounds : Nat
  turnovers : Nat
  goodDecisions : Nat
  badDecisions : Nat
deriving DecidableEq, Repr

def Counts.zero : Counts := ⟨0, 0, 0, 0, 0, 0⟩

/-- `logAction`: bump one counter. -/
def Counts.incr (c : Counts) : StatType → Counts
  | .points => { c with points := c.points + 1 }
  | .assists => { c with assists := c.assists + 1 }
  | .rebounds => { c with rebounds := c.rebounds + 1 }
  | .turnovers => { c with turnovers := c.turnovers + 1 }
  | .goodDecisions => { c with goodDecisions := c.goodDecisions + 1 }
  | .badDecisions => { c with badDecisions := c.badDecisions + 1 }

/-- The `Object.entries(stats)` expansion in
    `App.handleCompleteTimelineDataPush`: counts back to an action list,
    in field insertion order. -/
def Counts.toActions (c : Counts) : List StatType :=
  List.replicate c.points .points ++ List.replicate c.assists .assists ++
    List.replicate c.rebounds .rebounds ++ List.replicate c.turnovers .turnovers ++
    List.replicate c.goodDecisions .goodDecisions ++
    List.replicate c.badDecisions .badDecisions

/-- `PlayerStatus` from `PlayerPanel.tsx`. -/
inductive PlayerStatus
  | onCourt
  | bench
deriving DecidableEq, Repr

/-- `EventData` from `EventBlockGenerator.tsx` (timestamp omitted). -/
structure EventData where
  timelinePoint : Nat
  quarter : Nat
  actions : List StatType
  surveyResponses : Option SurveyResponses
  saaValue : Option Int
  saaLevel : Option SAALevel
deriving DecidableEq, Repr

/-- The `calculateSAAValue` variant local to `EventBlockGenerator.tsx`
    (lines 69-90): base 30, simple weighted sum, no clamp; `randomFactor`
    stands for `Math.random() * 10 - 5` (a value in [-5, 5)). -/
def calculateSAAValueGen (responses : SurveyResponses) (randomFactor : ℚ) :
    Int × SAALevel :=
  let baseValue : ℚ := 30
  let arousalContribution : ℚ := (responses.emotionalArousal : ℚ) * 2
  let momentumContribution : ℚ := (responses.momentum : ℚ) * (3/2)
  let flowContribution : ℚ := (responses.flow : ℚ) * 3
  let calculatedValue : Int := jsRound (baseValue + arousalContribution +
    momentumContribution + flowContribution + randomFactor)
  (calculatedValue, saaLevelOf calculatedValue)

/-- Combined state of `App` (part_006 variant), `PlayerPanel` (forwardRef
    variant) and `EventBlockGenerator`. -/
structure SimState where
  currentQuarter : Nat
  timelineEvents : List EventData
  currentTimelinePoint : Nat
  playerStatus : PlayerStatus
  statsByTimeline : Nat → Counts
  isSurveyOpen : Bool
  isSAAInputOpen : Bool
  tempSurveyResponses : Option SurveyResponses
  isGenerating : Bool
  genSurveyOpen : Bool
  currentEventData : Option EventData

/-- Initial `useState` values. -/
def initSim : SimState :=
  { currentQuarter := 1, timelineEvents := [], currentTimelinePoint := 1,
    playerStatus := .onCourt, statsByTimeline := fun _ => Counts.zero,
    isSurveyOpen := false, isSAAInputOpen := false,
    tempSurveyResponses := none, isGenerating := false,
    genSurveyOpen := false, currentEventData := none }

/-- `isSaveDisabled = currentTimelinePoint >= 7` (`PlayerPanel.tsx` line 355). -/
def isSaveDisabled (s : SimState) : Bool := s.currentTimelinePoint ≥ 7

/-- `advanceTimelinePoint` (`App.tsx` lines 55-61): `min(prev + 1, 7)`. -/
def advanceTimelinePoint (p : Nat) : Nat := min (p + 1) 7

/-- Orchestrator event alphabet.  Random draws travel on the events:
    `genStart` carries the output of `generateRandomActions` (3-5 weighted
    draws) and `genSurveySubmit` carries the `randomFactor` of the
    generator's sAA formula. -/
inductive SimEv
  | startSave
  | panelSurveySubmit (r : SurveyResponses)
  | panelSAASubmit (v : Nat)
  | panelCancel
  | genStart (acts : List StatType)
  | genSurveySubmit (r : SurveyResponses) (randomFactor : ℚ)
  | genSurveyClose

/-- Orchestrator transition function, handler by handler:

* `startSave`: the Save button (`startSaveFlow`) is disabled while
  `isSaveDisabled`; otherwise it opens the survey modal.
* `panelSurveySubmit`: `PlayerPanel.handleSurveySubmit` stores the
  responses, closes the survey and opens the sAA input modal.
* `panelSAASubmit`: `SAAInputModal.handleSubmit` computes the level, then
  `PlayerPanel.handleSAASubmit` assembles `CompleteTimelineData`, and
  `App.handleCompleteTimelineDataPush` appends the record and advances the
  timeline pointer; the point's counters reset.
* `panelCancel`: `PlayerPanel.handleCancel` (the `onClose` of both modals).
* `genStart`: `EventBlockGenerator.generateEventBlock`, guarded only by
  `isGenerating`; logs the drawn actions, benches the player, opens the
  generator's survey.
* `genSurveySubmit`: `EventBlockGenerator.handleSurveySubmit` plus the
  `onEventGenerated` -> `App.handleEventGenerated` completion: appends the
  record and advances the pointer.  (The current `SurveyModal` does not
  close itself on submit.)
* `genSurveyClose`: the generator survey's Cancel (`onClose`). -/
def simStep (s : SimState) : SimEv → SimState
  | .startSave =>
      if isSaveDisabled s then s else { s with isSurveyOpen := true }
  | .panelSurveySubmit r =>
      if s.isSurveyOpen then
        { s with tempSurveyResponses := some r, isSurveyOpen := false,
                 isSAAInputOpen := true }
      else s
  | .panelSAASubmit v =>
      if s.isSAAInputOpen then
        let level := saaLevelOf v
        let pt := s.currentTimelinePoint
        let record : EventData :=
          { timelinePoint := pt, quarter := s.currentQuarter,
            actions := (s.statsByTimeline pt).toActions,
            surveyResponses := s.tempSurveyResponses,
            saaValue := some v, saaLevel := some level }
        { s with isSAAInputOpen := false,
                 timelineEvents := s.timelineEvents ++ [record],
                 currentTimelinePoint := advanceTimelinePoint pt,
                 statsByTimeline := fun p =>
                   if p = pt then Counts.zero else s.statsByTimeline p,
                 tempSurveyResponses := none }
      else s
  | .panelCancel =>
      if s.isSurveyOpen ∨ s.isSAAInputOpen then
        { s with isSurveyOpen := false, isSAAInputOpen := false,
                 tempSurveyResponses := none }
      else s
  | .genStart acts =>
      if s.isGenerating then s
      else
        let pt := s.currentTimelinePoint
        { s with isGenerating := true,
                 currentEventData := some
                   { timelinePoint := pt, quarter := s.currentQuarter,
                     actions := acts, surveyResponses := none,
                     saaValue := none, saaLevel := none },
                 statsByTimeline := fun p =>
                   if p = pt then acts.foldl Counts.incr (s.statsByTimeline p)
                   else s.statsByTimeline p,
                 playerStatus := .bench,
                 genSurveyOpen := true }
  | .genSurveySubmit r randomFactor =>
      if s.genSurveyOpen then
        let saaResult := calculateSAAValueGen r randomFactor
        match s.currentEventData with
        | some ev =>
            let finalEventData : EventData :=
              { timelinePoint := s.currentTimelinePoint,
                quarter := s.currentQuarter, actions := ev.actions,
                surveyResponses := some r, saaValue := some saaResult.1,
                saaLevel := some saaResult.2 }
            let updatedEv : EventData :=
              { ev with surveyResponses := some r,
                        saaValue := some saaResult.1,
                        saaLevel := some saaResult.2 }
            { s with
              currentEventData := some updatedEv,
              timelineEvents := s.timelineEvents ++ [finalEventData],
              currentTimelinePoint :=
                advanceTimelinePoint s.currentTimelinePoint,
              isGenerating := false }
        | none => { s with isGenerating := false }
      else s
  | .genSurveyClose => { s with genSurveyOpen := false }

/-- Orchestrator states reachable from the initial state. -/
inductive SimReachable : SimState → Prop
  | init : SimReachable initSim
  | step {s : SimState} (e : SimEv) : SimReachable s → SimReachable (simStep s e)

/-- Run a list of events from a state. -/
def simRun (s : SimState) (evs : List SimEv) : SimState :=
  evs.foldl simStep s

example : calculateSAAValue ⟨5, 5, 5⟩ 0 = (48, .low) := by
  norm_num [calculateSAAValue, jsRound, saaLevelOf, Prod.ext_iff]
example : calculatePsychologicalState ⟨5, 5, 5⟩ = 79 := by
  norm_num [calculatePsychologicalState, normalizeValue]

/-! ## Helper lemmas -/

lemma foldl_weights (l : List StatType) (init : Int) :
    l.foldl (fun total action => total + weights action) init =
      init + (l.map weights).sum := by
  induction l generalizing init with
  | nil => simp
  | cons a t ih =>
      simp only [List.foldl_cons, List.map_cons, List.sum_cons, ih]
      ring

lemma positiveScore_nonneg (stats : TimelineStats) : 0 ≤ positiveScore stats := by
  unfold positiveScore
  positivity

lemma negativeScore_nonneg (stats : TimelineStats) : 0 ≤ negativeScore stats := by
  unfold negativeScore
  positivity

lemma saaLevelOf_iff (v : Int) :
    (saaLevelOf v = .low ↔ v < 50) ∧ (saaLevelOf v = .high ↔ 80 < v) ∧
      (saaLevelOf v = .moderate ↔ (50 ≤ v ∧ v ≤ 80)) := by
  unfold saaLevelOf
  split_ifs with h1 h2 <;> refine ⟨?_, ?_, ?_⟩ <;> simp <;> omega

lemma jsRound_clamp_bounds (x : ℚ) :
    30 ≤ jsRound (max 30 (min 160 x)) ∧ jsRound (max 30 (min 160 x)) ≤ 160 := by
  unfold jsRound
  constructor
  · rw [Int.le_floor]
    have h : (30:ℚ) ≤ max 30 (min 160 x) := le_max_left _ _
    push_cast
    linarith
  · have h2 : max 30 (min 160 x) ≤ (160:ℚ) := max_le (by norm_num) (min_le_left _ _)
    have h3 : Int.floor (max 30 (min 160 x) + 1/2) < (161 : Int) := by
      rw [Int.floor_lt]
      push_cast
      linarith
    omega

/-! ## Claims -/

/-- C2: `calculatePerformanceScore` is exactly the +50-offset weighted sum
    clamped to [0, 100] (weights points +10, assists +8, rebounds +6,
    turnovers -5, goodDecisions +7, badDecisions -6); hence the result is
    always in [0, 100], six turnovers give exactly 20, and
    [points, assists, rebounds] gives exactly 74. -/
theorem performanceScore_spec (actions : List StatType) :
    calculatePerformanceScore actions =
      max 0 (min 100 (50 + (actions.map weights).sum)) ∧
    0 ≤ calculatePerformanceScore actions ∧
    calculatePerformanceScore actions ≤ 100 ∧
    calculatePerformanceScore (List.replicate 6 .turnovers) = 20 ∧
    calculatePerformanceScore [.points, .assists, .rebounds] = 74 := by
  refine ⟨?_, ?_, ?_, by decide, by decide⟩
  · simp only [calculatePerformanceScore, foldl_weights]
    omega
  · exact le_max_left _ _
  · exact max_le (by norm_num) (min_le_left _ _)

/-- C6: the efficiency percentage is `none` exactly when the total action
    count of the slot is zero; any slot with at least one action gets a
    non-null percentage. -/
theorem hollinger_null_iff (stats : TimelineStats) :
    (calculateHollingerScore stats).efficiencyPercentage = none ↔
      totalActions stats = 0 := by
  unfold calculateHollingerScore
  split_ifs with h <;> simp [h]

/-- C10: for survey ratings that are integers in [1, 9],
    `calculatePsychologicalState` stays in [0, 100] (the final
    `max(0, min(100, _))` clamp guarantees it). -/
theorem psychologicalState_range (responses : SurveyResponses)
    (ha : 1 ≤ responses.emotionalArousal) (ha' : responses.emotionalArousal ≤ 9)
    (hm : 1 ≤ responses.momentum) (hm' : responses.momentum ≤ 9)
    (hf : 1 ≤ responses.flow) (hf' : responses.flow ≤ 9) :
    0 ≤ calculatePsychologicalState responses ∧
      calculatePsychologicalState responses ≤ 100 := by
  unfold calculatePsychologicalState
  exact ⟨le_max_left _ _, max_le (by norm_num) (min_le_left _ _)⟩

/-- Witness for C10 at the default survey answers (5, 5, 5). -/
theorem psychologicalState_range_witness :
    0 ≤ calculatePsychologicalState ⟨5, 5, 5⟩ ∧
      calculatePsychologicalState ⟨5, 5, 5⟩ ≤ 100 :=
  psychologicalState_range ⟨5, 5, 5⟩ (by decide) (by decide) (by decide)
    (by decide) (by decide) (by decide)

/-- C3: for integer survey ratings in [1, 9] and any value of the random
    perturbation term (`Math.random() * 8 - 4`, a value in [-4, 4)),
    `calculateSAAValue` returns a value in [30, 160] whose level is `low`
    exactly below 50, `high` exactly above 80, and `moderate` otherwise. -/
theorem saaValue_range_level (responses : SurveyResponses) (r : ℚ)
    (ha : 1 ≤ responses.emotionalArousal) (ha' : responses.emotionalArousal ≤ 9)
    (hm : 1 ≤ responses.momentum) (hm' : responses.momentum ≤ 9)
    (hf : 1 ≤ responses.flow) (hf' : responses.flow ≤ 9)
    (hr : -4 ≤ r) (hr' : r < 4) :
    30 ≤ (calculateSAAValue responses r).1 ∧
    (calculateSAAValue responses r).1 ≤ 160 ∧
    ((calculateSAAValue responses r).2 = .low ↔
      (calculateSAAValue responses r).1 < 50) ∧
    ((calculateSAAValue responses r).2 = .high ↔
      80 < (calculateSAAValue responses r).1) ∧
    ((calculateSAAValue responses r).2 = .moderate ↔
      (50 ≤ (calculateSAAValue responses r).1 ∧
        (calculateSAAValue responses r).1 ≤ 80)) := by
  have hpair : (calculateSAAValue responses r).2 =
      saaLevelOf (calculateSAAValue responses r).1 := rfl
  have hbounds := jsRound_clamp_bounds
    (35 + (responses.emotionalArousal : ℚ) * 3 *
        (3/2 - (responses.momentum : ℚ) * (1/10)) +
      (if responses.flow < 4 then ((4 - responses.flow : Int) : ℚ) * 3
        else if responses.flow > 7 then ((responses.flow - 7 : Int) : ℚ) * 2
        else -(((responses.flow - 4 : Int) : ℚ) * 2)) + r)
  have hfst : (calculateSAAValue responses r).1 =
      jsRound (max 30 (min 160
        (35 + (responses.emotionalArousal : ℚ) * 3 *
            (3/2 - (responses.momentum : ℚ) * (1/10)) +
          (if responses.flow < 4 then ((4 - responses.flow : Int) : ℚ) * 3
            else if responses.flow > 7 then ((responses.flow - 7 : Int) : ℚ) * 2
            else -(((responses.flow - 4 : Int) : ℚ) * 2)) + r))) := rfl
  have hlev := saaLevelOf_iff (calculateSAAValue responses r).1
  rw [hfst] at *
  exact ⟨hbounds.1, hbounds.2, (hpair ▸ hlev).1, (hpair ▸ hlev).2.1,
    (hpair ▸ hlev).2.2⟩

/-- Witness for C3 at the default answers (5, 5, 5) and perturbation 0:
    the value is 48 with level `low`. -/
theorem saaValue_range_level_witness :
    30 ≤ (calculateSAAValue ⟨5, 5, 5⟩ 0).1 ∧
    (calculateSAAValue ⟨5, 5, 5⟩ 0).1 ≤ 160 ∧
    ((calculateSAAValue ⟨5, 5, 5⟩ 0).2 = .low ↔
      (calculateSAAValue ⟨5, 5, 5⟩ 0).1 < 50) ∧
    ((calculateSAAValue ⟨5, 5, 5⟩ 0).2 = .high ↔
      80 < (calculateSAAValue ⟨5, 5, 5⟩ 0).1) ∧
    ((calculateSAAValue ⟨5, 5, 5⟩ 0).2 = .moderate ↔
      (50 ≤ (calculateSAAValue ⟨5, 5, 5⟩ 0).1 ∧
        (calculateSAAValue ⟨5, 5, 5⟩ 0).1 ≤ 80)) :=
  saaValue_range_level ⟨5, 5, 5⟩ 0 (by decide) (by decide) (by decide)
    (by decide) (by decide) (by decide) (by decide) (by decide)

/-- C7: the efficiency is at most 80 when the slot holds exactly one action
    whose game score is positive, and equals
    `max(0, min(30, 30 - 10 * negativeScore))` (hence is at most 30)
    whenever `positiveScore = 0` and `negativeScore > 0`. -/
theorem hollinger_caps (stats : TimelineStats) :
    (totalActions stats = 1 → 0 < gameScore stats →
      ∃ e, (calculateHollingerScore stats).efficiencyPercentage = some e ∧
        e ≤ 80) ∧
    (positiveScore stats = 0 → 0 < negativeScore stats →
      (calculateHollingerScore stats).efficiencyPercentage =
        some (max 0 (min 30 (30 - negativeScore stats * 10))) ∧
      max 0 (min 30 (30 - negativeScore stats * 10)) ≤ 30) := by
  constructor
  · intro h1 h2
    have hneg := negativeScore_nonneg stats
    have hnotfinal : ¬(positiveScore stats = 0 ∧ negativeScore stats > 0) := by
      rintro ⟨hp, hn⟩
      unfold gameScore at h2
      rw [hp] at h2
      linarith
    have htot : ¬(totalActions stats = 0) := by omega
    refine ⟨min (efficiencyRounded stats) 80, ?_, min_le_right _ _⟩
    unfold calculateHollingerScore
    rw [if_neg htot]
    unfold efficiencyFinal
    rw [if_neg hnotfinal]
    unfold efficiencyCapped
    rw [if_pos ⟨h1, h2⟩]
  · intro hp hn
    have htot : ¬(totalActions stats = 0) := by
      intro h0
      have : stats.turnovers = 0 ∧ stats.badDecisions = 0 := by
        unfold totalActions at h0
        omega
      unfold negativeScore at hn
      rw [this.1, this.2] at hn
      norm_num at hn
    constructor
    · unfold calculateHollingerScore
      rw [if_neg htot]
      unfold efficiencyFinal
      rw [if_pos ⟨hp, hn⟩]
    · exact max_le (by norm_num) (min_le_left _ _)

/-- Witness for C7: a slot with a single point (total 1, game score 1,
    efficiency capped at 80) and a slot with a single turnover
    (positive score 0, negative score 1, efficiency 20). -/
theorem hollinger_caps_witness :
    (∃ e, (calculateHollingerScore ⟨1, 0, 1, 0, 0, 0, 0, 0⟩).efficiencyPercentage =
        some e ∧ e ≤ 80) ∧
    ((calculateHollingerScore ⟨1, 0, 0, 0, 0, 1, 0, 0⟩).efficiencyPercentage =
        some (max 0 (min 30 (30 - negativeScore ⟨1, 0, 0, 0, 0, 1, 0, 0⟩ * 10))) ∧
      max 0 (min 30 (30 - negativeScore ⟨1, 0, 0, 0, 0, 1, 0, 0⟩ * 10)) ≤ 30) :=
  ⟨(hollinger_caps ⟨1, 0, 1, 0, 0, 0, 0, 0⟩).1 (by decide)
      (by simp [gameScore, positiveScore, negativeScore]),
    (hollinger_caps ⟨1, 0, 0, 0, 0, 1, 0, 0⟩).2
      (by simp [positiveScore])
      (by simp [negativeScore])⟩

lemma clockStep_time_nonneg (s : GameClockState) (e : ClockEv)
    (h : 0 ≤ s.timeRemaining) : 0 ≤ (clockStep s e).timeRemaining := by
  cases e <;>
    simp only [clockStep, clockTick, startClock, pauseClock, nextQuarter,
      changeMode, advanceManualTime, QUARTER_TIME] <;>
    (try split_ifs) <;> (try dsimp only) <;> omega

/-- A fresh quarter with the clock running in `fast` mode. -/
def fastRunningClock : GameClockState :=
  { initClock with clockRunning := true, mode := .fast }

/-- C8: a tick of a running clock in `fast` mode decrements the remaining
    time by 5 seconds clamped at 0; five ticks from a fresh 600-second
    quarter leave 575 seconds; and no reachable clock state has negative
    remaining time. -/
theorem clock_fast_spec (s : GameClockState) (h0 : 0 ≤ s.timeRemaining)
    (hrun : s.clockRunning = true) (hmode : s.mode = .fast) :
    (clockTick s).timeRemaining = max 0 (s.timeRemaining - 5) ∧
    (clockTick^[5] fastRunningClock).timeRemaining = 575 ∧
    (∀ s', ClockReachable s' → 0 ≤ s'.timeRemaining) := by
  refine ⟨?_, by decide, ?_⟩
  · unfold clockTick
    rw [if_pos ⟨hrun, by rw [hmode]; decide⟩, hmode]
    by_cases ht : s.timeRemaining ≤ 0
    · rw [if_pos ht]
      show s.timeRemaining = max 0 (s.timeRemaining - 5)
      omega
    · rw [if_neg ht,
        if_neg (show ¬(PlaybackMode.fast = PlaybackMode.live) by decide)]
  · intro s' h'
    induction h' with
    | init => decide
    | step e _ ih => exact clockStep_time_nonneg _ e ih

/-- Witness for C8: one tick of a fresh running fast clock takes 600 to
    595 = max(0, 600 - 5). -/
theorem clock_fast_spec_witness :
    (clockTick fastRunningClock).timeRemaining =
      max 0 (fastRunningClock.timeRemaining - 5) :=
  (clock_fast_spec fastRunningClock (by decide) rfl rfl).1

/-- C4 counterexample: the digit string "200" passes `handleChange`, and
    `handleSubmit` then commits the value 200 with level `high` even though
    200 is not in [35, 160] (the form never range-checks typed values). -/
theorem saaInput_range_cex :
    (handleSubmit (handleChange initSAAInput "200".data)).1 =
      some (200, SAALevel.high) ∧
    ¬((35 : Nat) ≤ 200 ∧ (200 : Nat) ≤ 160) := by decide

/-- C4 (amended): submitting with an empty field is rejected locally
    (`isInvalid` becomes true, nothing is submitted); a non-numeric edit
    never enters the field; every value that is submitted carries the
    level determined by the <50 / >80 thresholds (hence one of
    low/moderate/high); and the built-in random generator only produces
    values in [35, 160].  Typed values themselves are arbitrary
    nonnegative integers, not confined to [35, 160]. -/
theorem saaInput_spec (st : SAAInputState) (v : Nat) (level : SAALevel)
    (rand : ℚ) (hr0 : 0 ≤ rand) (hr1 : rand < 1) :
    (st.saaValue = [] →
      (handleSubmit st).1 = none ∧ (handleSubmit st).2.isInvalid = true) ∧
    (∀ input, ¬(input = [] ∨ allDigits input = true) →
      handleChange st input = st) ∧
    ((handleSubmit st).1 = some (v, level) → level = saaLevelOf (v : Int)) ∧
    (35 ≤ generateRandomValue rand ∧ generateRandomValue rand ≤ 160) := by
  refine ⟨?_, ?_, ?_, ?_, ?_⟩
  · intro he
    unfold handleSubmit
    rw [if_pos he]
    exact ⟨rfl, rfl⟩
  · intro input hni
    unfold handleChange
    rw [if_neg (by simpa using hni)]
  · intro hsub
    unfold handleSubmit at hsub
    by_cases he : st.saaValue = []
    · rw [if_pos he] at hsub
      simp at hsub
    · rw [if_neg he] at hsub
      simp only [Option.some.injEq, Prod.mk.injEq] at hsub
      obtain ⟨h1, h2⟩ := hsub
      subst h1
      exact h2.symm
  · unfold generateRandomValue
    have : (0:Int) ≤ Int.floor (rand * 126) := by
      rw [Int.le_floor]
      push_cast
      positivity
    omega
  · unfold generateRandomValue
    have : Int.floor (rand * 126) < (126:Int) := by
      rw [Int.floor_lt]
      push_cast
      nlinarith
    omega

/-- Witness for C4 (amended) at the field state reached by typing "200"
    and a random draw of 0. -/
theorem saaInput_spec_witness :
    ((handleChange initSAAInput "200".data).saaValue = [] →
      (handleSubmit (handleChange initSAAInput "200".data)).1 = none ∧
      (handleSubmit (handleChange initSAAInput "200".data)).2.isInvalid = true) ∧
    (∀ input, ¬(input = [] ∨ allDigits input = true) →
      handleChange (handleChange initSAAInput "200".data) input =
        handleChange initSAAInput "200".data) ∧
    ((handleSubmit (handleChange initSAAInput "200".data)).1 =
        some (200, SAALevel.high) → SAALevel.high = saaLevelOf (200 : Int)) ∧
    (35 ≤ generateRandomValue 0 ∧ generateRandomValue 0 ≤ 160) :=
  saaInput_spec (handleChange initSAAInput "200".data) 200 SAALevel.high 0
    (by decide) (by decide)

/-- C9 counterexample: the claim "for v outside [fromMin, fromMax] the
    output is outside [toMin, toMax]" fails under the claimed precondition
    `fromMax ≠ fromMin` alone.  With a degenerate target range
    (toMin = toMax = 5), v = 10 is outside [1, 9] yet the output 5 lies in
    [5, 5]; with a reversed source range (fromMin = 9 > fromMax = 1),
    v = 5 is outside [9, 1] yet the output 50 lies in [0, 100]. -/
theorem normalizeValue_outside_cex :
    ((9:ℚ) ≠ 1 ∧ ¬((1:ℚ) ≤ 10 ∧ (10:ℚ) ≤ 9) ∧
      normalizeValue 10 1 9 5 5 = 5 ∧
      ((5:ℚ) ≤ normalizeValue 10 1 9 5 5 ∧ normalizeValue 10 1 9 5 5 ≤ 5)) ∧
    ((1:ℚ) ≠ 9 ∧ ¬((9:ℚ) ≤ 5 ∧ (5:ℚ) ≤ 1) ∧
      normalizeValue 5 9 1 0 100 = 50 ∧
      ((0:ℚ) ≤ normalizeValue 5 9 1 0 100 ∧
        normalizeValue 5 9 1 0 100 ≤ 100)) := by
  norm_num [normalizeValue]

/-- C9 (amended): `normalizeValue` is exactly the unclamped linear rescale
    `((v - fromMin) / (fromMax - fromMin)) * (toMax - toMin) + toMin`;
    provided `fromMin < fromMax` and `toMin ≠ toMax` (true at every
    in-repo call site: (1,9,0,100), (1,9,30,100) and (30,160,0,100)), an
    input outside [fromMin, fromMax] yields an output outside
    [toMin, toMax]; and the divisor `fromMax - fromMin` is nonzero. -/
theorem normalizeValue_spec (v fromMin fromMax toMin toMax : ℚ)
    (hfrom : fromMin < fromMax) (hto : toMin ≠ toMax) :
    normalizeValue v fromMin fromMax toMin toMax =
      ((v - fromMin) / (fromMax - fromMin)) * (toMax - toMin) + toMin ∧
    ((v < fromMin ∨ fromMax < v) →
      ¬(toMin ≤ normalizeValue v fromMin fromMax toMin toMax ∧
        normalizeValue v fromMin fromMax toMin toMax ≤ toMax)) ∧
    fromMax - fromMin ≠ 0 := by
  have hb : (0:ℚ) < fromMax - fromMin := by linarith
  refine ⟨rfl, ?_, by positivity⟩
  intro hv hin
  obtain ⟨hge, hle⟩ := hin
  unfold normalizeValue at hge hle
  rcases lt_or_gt_of_ne hto with hcd | hdc
  · rcases hv with hlo | hhi
    · have hnum : (v - fromMin) * (toMax - toMin) < 0 :=
        mul_neg_of_neg_of_pos (by linarith) (by linarith)
      have hdiv : ((v - fromMin) / (fromMax - fromMin)) * (toMax - toMin) < 0 := by
        rw [div_mul_eq_mul_div]
        exact div_neg_of_neg_of_pos hnum hb
      linarith
    · have ht1 : 1 < (v - fromMin) / (fromMax - fromMin) :=
        (one_lt_div hb).mpr (by linarith)
      have hmul := mul_lt_mul_of_pos_right ht1 (by linarith : (0:ℚ) < toMax - toMin)
      linarith
  · linarith

/-- Witness for C9 (amended) at the correlation-dashboard call site
    `normalizeValue(10, 1, 9, 0, 100)` with the out-of-band input 10. -/
theorem normalizeValue_spec_witness :
    normalizeValue 10 1 9 0 100 = ((10 - 1) / (9 - 1)) * (100 - 0) + 0 ∧
    (((10:ℚ) < 1 ∨ (9:ℚ) < 10) →
      ¬((0:ℚ) ≤ normalizeValue 10 1 9 0 100 ∧
        normalizeValue 10 1 9 0 100 ≤ 100)) ∧
    (9:ℚ) - 1 ≠ 0 :=
  normalizeValue_spec 10 1 9 0 100 (by decide) (by decide)

/-- The state reached by firing the generator start trigger at the initial
    state (its survey modal is open: the generator flow's `AwaitingSurvey`). -/
def genAwaitingSurvey : SimState :=
  simStep initSim (.genStart [.points, .assists, .rebounds])

/-- The same state after the generator survey's Cancel (`onClose`, which
    only runs `setIsSurveyOpen(false)`). -/
def genCancelled : SimState := simStep genAwaitingSurvey .genSurveyClose

/-- C5 counterexample: in the generator flow, cancelling during
    `AwaitingSurvey` does not return the system to Idle.  From the initial
    state the generator start trigger opens its survey; Cancel closes the
    modal but never resets `isGenerating`, so a subsequent start trigger is
    refused (the state is unchanged) and no new cycle can ever be started.
    (The history is indeed left unchanged.) -/
theorem cancel_generator_stuck_cex :
    genAwaitingSurvey.genSurveyOpen = true ∧
    genCancelled.genSurveyOpen = false ∧
    genCancelled.timelineEvents = genAwaitingSurvey.timelineEvents ∧
    genCancelled.isGenerating = true ∧
    simStep genCancelled (.genStart [.points]) = genCancelled :=
  ⟨rfl, rfl, rfl, rfl, rfl⟩

/-- C5 (amended): a cancel while a capture modal is open leaves the
    accumulated history unchanged on both paths — no record is ever
    appended by a cancel.  The PlayerPanel flow's cancel (`handleCancel`)
    returns the system to Idle: both modals close, the stored survey
    responses are discarded, and the pointer is untouched.  The generator
    flow's cancel (`SurveyModal onClose`) only closes its survey modal and
    does not reset `isGenerating`, so that flow does not return to Idle
    and no new generator cycle can be started. -/
theorem cancel_spec (s : SimState)
    (h : s.isSurveyOpen = true ∨ s.isSAAInputOpen = true) :
    ((simStep s .panelCancel).isSurveyOpen = false ∧
     (simStep s .panelCancel).isSAAInputOpen = false ∧
     (simStep s .panelCancel).tempSurveyResponses = none ∧
     (simStep s .panelCancel).timelineEvents = s.timelineEvents ∧
     (simStep s .panelCancel).currentTimelinePoint =
       s.currentTimelinePoint) ∧
    (∀ s' : SimState,
      (simStep s' .genSurveyClose).timelineEvents = s'.timelineEvents ∧
      (simStep s' .genSurveyClose).genSurveyOpen = false ∧
      (simStep s' .genSurveyClose).isGenerating = s'.isGenerating) := by
  constructor
  · simp only [simStep]
    rw [if_pos h]
    exact ⟨rfl, rfl, rfl, rfl, rfl⟩
  · intro s'
    exact ⟨rfl, rfl, rfl⟩

/-- Witness for C5 (amended): cancelling right after the save flow opened
    the survey modal at the initial state. -/
theorem cancel_spec_witness :
    (((simStep (simStep initSim .startSave) .panelCancel).isSurveyOpen =
        false ∧
      (simStep (simStep initSim .startSave) .panelCancel).isSAAInputOpen =
        false ∧
      (simStep (simStep initSim .startSave) .panelCancel).tempSurveyResponses =
        none ∧
      (simStep (simStep initSim .startSave) .panelCancel).timelineEvents =
        (simStep initSim .startSave).timelineEvents ∧
      (simStep (simStep initSim .startSave) .panelCancel).currentTimelinePoint =
        (simStep initSim .startSave).currentTimelinePoint) ∧
     (∀ s' : SimState,
       (simStep s' .genSurveyClose).timelineEvents = s'.timelineEvents ∧
       (simStep s' .genSurveyClose).genSurveyOpen = false ∧
       (simStep s' .genSurveyClose).isGenerating = s'.isGenerating)) :=
  cancel_spec (simStep initSim .startSave) (Or.inl rfl)

lemma simStep_pointer (s : SimState) (e : SimEv) :
    (simStep s e).currentTimelinePoint = s.currentTimelinePoint ∨
    (simStep s e).currentTimelinePoint =
      advanceTimelinePoint s.currentTimelinePoint := by
  cases e with
  | panelSAASubmit v =>
      simp only [simStep]
      split_ifs <;> simp
  | genSurveySubmit r q =>
      simp only [simStep]
      split_ifs with h
      · cases s.currentEventData <;> simp
      · simp
  | startSave => simp only [simStep]; split_ifs <;> simp
  | panelSurveySubmit r => simp only [simStep]; split_ifs <;> simp
  | panelCancel => simp only [simStep]; split_ifs <;> simp
  | genStart acts => simp only [simStep]; split_ifs <;> simp
  | genSurveyClose => simp [simStep]

/-- C1 (amended): the timeline pointer of any reachable orchestrator state
    never exceeds 7, and the PlayerPanel save flow's start trigger is
    disabled at pointer ≥ 7 (firing it is a no-op, so it never appends an
    8th record); the guarantee does not extend to the EventBlockGenerator
    start trigger, which is not pointer-guarded (see the counterexample). -/
theorem timeline_pointer_spec :
    (∀ s, SimReachable s → s.currentTimelinePoint ≤ 7) ∧
    (∀ s : SimState, s.currentTimelinePoint ≥ 7 → simStep s .startSave = s) := by
  constructor
  · intro s h
    induction h with
    | init => decide
    | step e _ ih =>
        rcases simStep_pointer _ e with h1 | h1 <;> rw [h1]
        · exact ih
        · unfold advanceTimelinePoint
          omega
  · intro s h7
    simp only [simStep]
    rw [if_pos (by simp only [isSaveDisabled]; exact decide_eq_true h7)]

/-- Witness for C1 (amended): the initial state. -/
theorem timeline_pointer_spec_witness :
    initSim.currentTimelinePoint ≤ 7 :=
  timeline_pointer_spec.1 initSim SimReachable.init

/-- One full generator cycle: the start trigger followed by the survey
    submit that completes the event block. -/
def cexCycle : List SimEv :=
  [.genStart [.points, .assists, .rebounds], .genSurveySubmit ⟨5, 5, 5⟩ 0]

/-- Seven completed generator cycles from the initial state. -/
def cexPrefix : SimState :=
  simRun initSim (List.flatten (List.replicate 7 cexCycle))

/-- An eighth generator cycle on top of the seven. -/
def cexFinal : SimState := simRun cexPrefix cexCycle

/-- C1 counterexample: after seven completed generator cycles the pointer
    is 7 and the history holds 7 records, the generator start trigger
    still fires (the guard accepts it and starts generating), and the
    completed eighth cycle appends an 8th record to the history. -/
theorem timeline_eighth_record_cex :
    cexPrefix.currentTimelinePoint = 7 ∧
    cexPrefix.timelineEvents.length = 7 ∧
    (simStep cexPrefix (.genStart [.points, .assists, .rebounds])).isGenerating
      = true ∧
    cexFinal.timelineEvents.length = 8 := by
  refine ⟨by decide, ?_, by decide, ?_⟩ <;> decide

end Simulation
